import Mathlib

/-!
Verification development for the FHIR natural-language query service
(`part1/fhir_nlp_service.py`).

The Python source is shallowly embedded: the text-annotation capability
(spaCy) is modelled as an oracle `String → Doc` supplied by the caller,
Python dicts with fixed key sets become structures, Python lists become
`List`, and the remote FHIR server consumed by the result fetcher is
modelled as an oracle mapping a URL and a parameter set to a response.
All definitions are executable; machine integers are `Int`/`Nat`.
-/

namespace FHIRNLP

/-! ## String utilities modelling the Python primitives used by the service -/

/-- Models Python `str.lower` on a single character (ASCII range, which is all
the service's dictionaries and cue words use). -/
def asciiLowerChar (c : Char) : Char :=
  if 65 ≤ c.toNat ∧ c.toNat ≤ 90 then Char.ofNat (c.toNat + 32) else c

/-- Models Python `str.lower`. -/
def pyLower (s : String) : String :=
  ⟨s.data.map asciiLowerChar⟩

/-- Models Python substring containment `pat in s` on character lists. -/
def listIsInfix (p : List Char) : List Char → Bool
  | [] => p.isPrefixOf []
  | c :: t => p.isPrefixOf (c :: t) || listIsInfix p t

/-- Models Python substring containment `pat in s` for strings. -/
def pyIn (pat s : String) : Bool :=
  listIsInfix pat.data s.data

/-- Numeric value of a list of decimal digit characters. -/
def digitsToNat (ds : List Char) : Nat :=
  ds.foldl (fun acc c => acc * 10 + (c.toNat - 48)) 0

/-- Models Python `int(text)` (success on an optionally-signed decimal
literal, `ValueError` — here `none` — otherwise). -/
def pyInt? (s : String) : Option Int :=
  match s.data with
  | [] => none
  | '-' :: ds =>
    if ds ≠ [] ∧ ds.all (fun c => c.isDigit) then
      some (-(Int.ofNat (digitsToNat ds)))
    else none
  | ds =>
    if ds.all (fun c => c.isDigit) then some (Int.ofNat (digitsToNat ds)) else none

/-- Models Python `str.split()` for the space-separated dictionary terms
(splits on spaces, discarding empty fragments). -/
def splitOnSpaceAux : List Char → List Char → List String
  | [], acc => [⟨acc.reverse⟩]
  | ' ' :: rest, acc => ⟨acc.reverse⟩ :: splitOnSpaceAux rest []
  | c :: rest, acc => splitOnSpaceAux rest (c :: acc)

/-- Models Python `str.split()` on the service's dictionary terms. -/
def pySplit (s : String) : List String :=
  (splitOnSpaceAux s.data []).filter (fun w => w ≠ "")

/-- Models Python `" ".join(words)`. -/
def joinSpace (words : List String) : String :=
  String.intercalate " " words

/-! ## Annotated documents: output shape of the external NLP collaborator -/

/-- One annotated token as consumed from the spaCy document: surface text
(`token.text`), lemma (`token.lemma_`), part-of-speech tag (`token.pos_`),
the numeric-likeness flag (`token.like_num`), and the texts of the token's
dependency children (`token.children`). -/
structure Token where
  text : String
  lemma_ : String
  pos_ : String
  like_num : Bool
  children : List String
deriving DecidableEq, Repr

/-- One named-entity span (`ent.text`, `ent.label_`). -/
structure Ent where
  text : String
  label_ : String
deriving DecidableEq, Repr

/-- An annotated document: token sequence, named-entity spans, and the raw
text (`doc.text`, which spaCy reports as the exact input string). -/
structure Doc where
  tokens : List Token
  ents : List Ent
  text : String
deriving DecidableEq, Repr

/-! ## Static domain dictionaries from `FHIRNLPProcessor.__init__` -/

/-- Code/system/display triple of one condition-dictionary entry. -/
structure CondInfo where
  code : String
  system : String
  display : String
deriving DecidableEq, Repr

/-- The `condition_mappings` dictionary, in Python insertion order. -/
def condition_mappings : List (String × CondInfo) :=
  [("diabetes", ⟨"44054006", "http://snomed.info/sct", "Diabetes mellitus"⟩),
   ("diabetic", ⟨"44054006", "http://snomed.info/sct", "Diabetes mellitus"⟩),
   ("hypertension", ⟨"38341003", "http://snomed.info/sct", "Hypertension"⟩),
   ("heart disease", ⟨"56265001", "http://snomed.info/sct", "Heart disease"⟩),
   ("asthma", ⟨"195967001", "http://snomed.info/sct", "Asthma"⟩),
   ("depression", ⟨"35489007", "http://snomed.info/sct", "Depressive disorder"⟩),
   ("cancer", ⟨"363346000", "http://snomed.info/sct", "Malignant neoplastic disease"⟩)]

/-- The `age_patterns` keyword-to-operator dictionary. -/
def age_patterns : List (String × String) :=
  [("over", ">"), ("above", ">"), ("under", "<"), ("below", "<"),
   ("exactly", "="), ("between", "range")]

/-- The `word_to_num` table of `_convert_to_number`. -/
def word_to_num : List (String × Int) :=
  [("one", 1), ("two", 2), ("three", 3), ("four", 4), ("five", 5),
   ("six", 6), ("seven", 7), ("eight", 8), ("nine", 9), ("ten", 10),
   ("twenty", 20), ("thirty", 30), ("forty", 40), ("fifty", 50),
   ("sixty", 60), ("seventy", 70), ("eighty", 80), ("ninety", 90)]

/-- The `search_verbs` set of `_determine_intent_with_spacy`. -/
def search_verbs : List String :=
  ["show", "list", "find", "get", "display", "retrieve", "fetch"]

/-- The `count_verbs` set of `_determine_intent_with_spacy`. -/
def count_verbs : List String :=
  ["count", "number"]

/-- The `aggregate_verbs` set of `_determine_intent_with_spacy`. -/
def aggregate_verbs : List String :=
  ["average", "mean", "median", "sum", "total"]

/-- The `male_indicators` set of `_extract_gender_with_spacy`. -/
def male_indicators : List String :=
  ["male", "man", "men", "boy", "gentleman", "guy"]

/-- The `female_indicators` set of `_extract_gender_with_spacy`. -/
def female_indicators : List String :=
  ["female", "woman", "women", "girl", "lady", "gal"]

/-! ## Entity-extraction data model -/

/-- One extracted condition, as produced by `_extract_conditions_with_spacy`
(the Python dict with keys `term`, `code`, `system`, `display`,
`extraction_method`). -/
structure ConditionMatch where
  term : String
  code : String
  system : String
  display : String
  extraction_method : String
deriving DecidableEq, Repr

/-- One numeric mention, as produced by `_extract_numbers_with_context`
(the Python dict with keys `value`, `numeric_value`, `context`, `position`,
`dependencies`). -/
structure NumberInfo where
  value : String
  numeric_value : Option Int
  context : String
  position : Nat
  dependencies : List String
deriving DecidableEq, Repr

/-- One age filter, as produced by `_extract_age_filters_with_spacy`: either a
comparison dict `{"operator": op, "value": v, "extraction_method": m}` with
`op` one of `">"`, `"<"`, `"="`, or a range dict
`{"operator": "range", "min": lo, "max": hi, "extraction_method": m}`. -/
inductive AgeFilter where
  | cmp (operator : String) (value : Int) (extraction_method : String)
  | range (min max : Int) (extraction_method : String)
deriving DecidableEq, Repr

/-- One named-entity record stored for observability by `extract_entities`
(keys `text`, `label`, `description`; the description is
`spacy.explain(label)`, which may be `None`). -/
structure EntInfo where
  text : String
  label : String
  description : Option String
deriving DecidableEq, Repr

/-- The entity bag returned by `extract_entities`. -/
structure ExtractedEntities where
  conditions : List ConditionMatch
  age_filters : List AgeFilter
  gender : Option String
  intent : String
  resource_types : List String
  extracted_numbers : List NumberInfo
  extracted_entities : List EntInfo
deriving DecidableEq, Repr

/-! ## Intent detection: `_determine_intent_with_spacy` -/

/-- The union `search_verbs | count_verbs | aggregate_verbs` used in the
token-scan condition. -/
def intent_keywords : List String :=
  search_verbs ++ count_verbs ++ aggregate_verbs

/-- The body of the token-scan loop of `_determine_intent_with_spacy`: the
intent returned at this token, or `none` when the loop continues to the next
token. `doc_lemmas` is `[t.lemma_ for t in doc]`. -/
def tokenIntent (doc_lemmas : List String) (token : Token) : Option String :=
  if token.pos_ = "VERB" ∨ token.lemma_ ∈ intent_keywords then
    if token.lemma_ ∈ search_verbs then some "search"
    else if token.lemma_ ∈ count_verbs ∨ "many" ∈ doc_lemmas then some "count"
    else if token.lemma_ ∈ aggregate_verbs then some "aggregate"
    else none
  else none

/-- The phrase fallback of `_determine_intent_with_spacy`, applied to
`doc.text` when no token returns an intent. -/
def phraseFallbackIntent (text : String) : String :=
  if pyIn "how many" text = true ∨ pyIn "number of" text = true then "count"
  else if pyIn "average" text = true ∨ pyIn "mean" text = true ∨
      pyIn "median" text = true then "aggregate"
  else "search"

/-- `_determine_intent_with_spacy`: first token of the scan that returns an
intent wins; otherwise the phrase fallback over `doc.text` applies. -/
def determine_intent_with_spacy (doc : Doc) : String :=
  match doc.tokens.findSome? (tokenIntent (doc.tokens.map (fun t => t.lemma_))) with
  | some intent => intent
  | none => phraseFallbackIntent doc.text

/-! ## Numeric mentions: `_extract_numbers_with_context` -/

/-- `_convert_to_number`: direct integer parse, then the word-number table
applied to the lowercased text. -/
def convert_to_number (text : String) : Option Int :=
  match pyInt? text with
  | some n => some n
  | none => word_to_num.lookup (pyLower text)

/-- The context window of the token at position `i`: the texts of tokens at
positions `max(0, i-2) ≤ j < min(len, i+3)`, `j ≠ i`, joined with spaces. -/
def token_context (doc : Doc) (i : Nat) : String :=
  let start_idx := i - 2
  let end_idx := min doc.tokens.length (i + 3)
  let idxs := (List.range' start_idx (end_idx - start_idx)).filter (fun j => j != i)
  joinSpace (idxs.filterMap (fun j => (doc.tokens.get? j).map (fun t => t.text)))

/-- `_extract_numbers_with_context`: one record per token flagged numeric
(`like_num` or POS tag `NUM`). -/
def extract_numbers_with_context (doc : Doc) : List NumberInfo :=
  doc.tokens.enum.filterMap (fun p =>
    if p.2.like_num = true ∨ p.2.pos_ = "NUM" then
      some { value := p.2.text
             numeric_value := convert_to_number p.2.text
             context := token_context doc p.1
             position := p.1
             dependencies := p.2.children }
    else none)

/-! ## Condition extraction: `_extract_conditions_with_spacy` -/

/-- The inner dictionary loop of `_extract_conditions_with_spacy` for one
token: the first dictionary entry (in dictionary order) that matches appends
a `ConditionMatch` and breaks; a multi-word entry matches when all its words
occur in the document's lemma list, a single-word entry when the token's
lemma or surface text equals it. -/
def conditionMatchOfToken (doc_lemmas : List String) (tok : Token) :
    List (String × CondInfo) → Option ConditionMatch
  | [] => none
  | (condition, mapping) :: rest =>
    let condition_words := pySplit condition
    if condition_words.length > 1 then
      if condition_words.all (fun w => decide (w ∈ doc_lemmas)) then
        some { term := condition, code := mapping.code, system := mapping.system,
               display := mapping.display, extraction_method := "spacy_lemma_multiword" }
      else conditionMatchOfToken doc_lemmas tok rest
    else if tok.lemma_ = condition ∨ tok.text = condition then
      some { term := condition, code := mapping.code, system := mapping.system,
             display := mapping.display, extraction_method := "spacy_lemma" }
    else conditionMatchOfToken doc_lemmas tok rest

/-- The named-entity pass of `_extract_conditions_with_spacy`: spans labeled
`DISEASE` or `SYMPTOM` whose lowercased text is a dictionary key. -/
def nerConditions (doc : Doc) : List ConditionMatch :=
  doc.ents.filterMap (fun ent =>
    if ent.label_ = "DISEASE" ∨ ent.label_ = "SYMPTOM" then
      match condition_mappings.lookup (pyLower ent.text) with
      | some mapping =>
        some { term := pyLower ent.text, code := mapping.code, system := mapping.system,
               display := mapping.display, extraction_method := "spacy_ner" }
      | none => none
    else none)

/-- The dedup loop at the end of `_extract_conditions_with_spacy`: keep a
match only when its code was not seen before (first occurrence wins). -/
def dedupByCode : List ConditionMatch → List String → List ConditionMatch
  | [], _ => []
  | c :: rest, seen =>
    if c.code ∈ seen then dedupByCode rest seen
    else c :: dedupByCode rest (c.code :: seen)

/-- `_extract_conditions_with_spacy`: per-token dictionary matching, then the
named-entity pass, then deduplication by code. -/
def extract_conditions_with_spacy (doc : Doc) : List ConditionMatch :=
  let doc_lemmas := doc.tokens.map (fun t => t.lemma_)
  let conditions :=
    doc.tokens.filterMap (fun tok => conditionMatchOfToken doc_lemmas tok condition_mappings)
      ++ nerConditions doc
  dedupByCode conditions []

/-! ## Age-filter extraction: `_extract_age_filters_with_spacy` -/

/-- Python truthiness of the optional `numeric_value` field (`None` and `0`
are falsy). -/
def truthyOptInt : Option Int → Bool
  | none => false
  | some n => n != 0

/-- The context-analysis branch of `_extract_age_filters_with_spacy` for one
numeric mention: a mention whose `numeric_value` is falsy is skipped;
otherwise its lowercased context window is searched for comparison cues, and
a `between` cue pairs the mention with the first other mention in the list
that has a truthy numeric value. -/
def contextFilterOf (numbers_with_context : List NumberInfo)
    (number_info : NumberInfo) : Option AgeFilter :=
  match number_info.numeric_value with
  | none => none
  | some numeric_value =>
    if numeric_value = 0 then none
    else
      let context := pyLower number_info.context
      if ["over", "above", "more than", "greater"].any (fun w => pyIn w context) then
        some (AgeFilter.cmp ">" numeric_value "spacy_context")
      else if ["under", "below", "less than", "younger"].any (fun w => pyIn w context) then
        some (AgeFilter.cmp "<" numeric_value "spacy_context")
      else if pyIn "between" context then
        match numbers_with_context.find?
            (fun other => decide (other ≠ number_info) && truthyOptInt other.numeric_value) with
        | some other =>
          match other.numeric_value with
          | some w =>
            some (AgeFilter.range (min numeric_value w) (max numeric_value w)
              "spacy_context_range")
          | none => none
        | none => none
      else none

/-- Matching a string literal at the head of the character stream (one regex
literal atom). -/
def matchLiteral (w : String) (cs : List Char) : Option (List Char) :=
  if w.data.isPrefixOf cs then some (cs.drop w.data.length) else none

/-- Matching `\s+(\d+)` at the head of the stream: at least one whitespace
character, then at least one digit (the groups of the service's age regexes;
maximal runs coincide with the greedy regex semantics because whitespace,
digits, and the adjacent literals are disjoint character classes). -/
def spacesThenDigits (cs : List Char) : Option (Nat × List Char) :=
  let sp := cs.span (fun c => c.isWhitespace)
  if sp.1.isEmpty then none
  else
    let ds := sp.2.span (fun c => c.isDigit)
    if ds.1.isEmpty then none
    else some (digitsToNat ds.1, ds.2)

/-- Matching `\s+w` at the head of the stream for a literal `w`. -/
def spacesThenLiteral (w : String) (cs : List Char) : Option (List Char) :=
  let sp := cs.span (fun c => c.isWhitespace)
  if sp.1.isEmpty then none else matchLiteral w sp.2

/-- The alternation words of the regex `(over|above|under|below|exactly)\s+(\d+)`,
in alternation order (their first letters are pairwise distinct, so at most
one alternative can match at a given position). -/
def cmp_regex_words : List String :=
  ["over", "above", "under", "below", "exactly"]

/-- Matching `(over|above|under|below|exactly)\s+(\d+)` at one position. -/
def cmpMatchAt (cs : List Char) : Option (String × Nat) :=
  cmp_regex_words.findSome? (fun w =>
    match matchLiteral w cs with
    | some rest => (spacesThenDigits rest).map (fun p => (w, p.1))
    | none => none)

/-- Models `re.search(r'(over|above|under|below|exactly)\s+(\d+)', text)`:
the leftmost match wins. -/
def searchCmp : List Char → Option (String × Nat)
  | [] => none
  | c :: rest =>
    match cmpMatchAt (c :: rest) with
    | some r => some r
    | none => searchCmp rest

/-- Matching `between\s+(\d+)\s+and\s+(\d+)` at one position. -/
def betweenMatchAt (cs : List Char) : Option (Nat × Nat) :=
  match matchLiteral "between" cs with
  | none => none
  | some r1 =>
    match spacesThenDigits r1 with
    | none => none
    | some (a, r2) =>
      match spacesThenLiteral "and" r2 with
      | none => none
      | some r3 =>
        match spacesThenDigits r3 with
        | none => none
        | some (b, _) => some (a, b)

/-- Models `re.search(r'between\s+(\d+)\s+and\s+(\d+)', text)`: the leftmost
match wins. -/
def searchBetween : List Char → Option (Nat × Nat)
  | [] => none
  | c :: rest =>
    match betweenMatchAt (c :: rest) with
    | some r => some r
    | none => searchBetween rest

/-- `_extract_age_filters_with_spacy`: the context-analysis pass over the
numeric mentions; when it yields nothing, the two regex fallbacks over
`doc.text` are appended in order (comparison pattern first, then the
`between` range pattern; the range regex records the two numbers in textual
order). -/
def extract_age_filters_with_spacy (doc : Doc)
    (numbers_with_context : List NumberInfo) : List AgeFilter :=
  let age_filters := numbers_with_context.filterMap (contextFilterOf numbers_with_context)
  if age_filters.isEmpty then
    (match searchCmp doc.text.data with
     | some (w, age) =>
       [AgeFilter.cmp ((age_patterns.lookup w).getD ">") (Int.ofNat age) "regex_fallback"]
     | none => []) ++
    (match searchBetween doc.text.data with
     | some (a, b) => [AgeFilter.range (Int.ofNat a) (Int.ofNat b) "regex_fallback"]
     | none => [])
  else age_filters

/-! ## Gender extraction: `_extract_gender_with_spacy` -/

/-- `_extract_gender_with_spacy`: the first token whose lemma or surface text
is a male indicator yields `male`, checked before the female indicators. -/
def extract_gender_with_spacy (doc : Doc) : Option String :=
  doc.tokens.findSome? (fun token =>
    if token.lemma_ ∈ male_indicators ∨ token.text ∈ male_indicators then some "male"
    else if token.lemma_ ∈ female_indicators ∨ token.text ∈ female_indicators then
      some "female"
    else none)

/-! ## `extract_entities` -/

/-- `extract_entities`: lowercase the query, annotate it through the external
NLP oracle `nlp`, and assemble the entity bag. `explain` is the
`spacy.explain` oracle used only for the observability records. -/
def extract_entities (nlp : String → Doc) (explain : String → Option String)
    (query : String) : ExtractedEntities :=
  let doc := nlp (pyLower query)
  let numbers_with_context := extract_numbers_with_context doc
  let conditions := extract_conditions_with_spacy doc
  { conditions := conditions
    age_filters := extract_age_filters_with_spacy doc numbers_with_context
    gender := extract_gender_with_spacy doc
    intent := determine_intent_with_spacy doc
    resource_types := (if conditions ≠ [] then ["Condition"] else []) ++ ["Patient"]
    extracted_numbers := numbers_with_context
    extracted_entities := doc.ents.map (fun e => ⟨e.text, e.label_, explain e.label_⟩) }

/-! ## Query building: `build_fhir_query` -/

/-- The `ResourceType` enum of the service. -/
inductive ResourceType where
  | PATIENT
  | CONDITION
  | OBSERVATION
  | MEDICATION_REQUEST
deriving DecidableEq, Repr

/-- The `.value` string of each `ResourceType` member. -/
def ResourceType.value : ResourceType → String
  | .PATIENT => "Patient"
  | .CONDITION => "Condition"
  | .OBSERVATION => "Observation"
  | .MEDICATION_REQUEST => "MedicationRequest"

/-- The `FHIRQuery` dataclass. The `parameters` dict (string keys built by
`build_fhir_query` with string values, unique keys, insertion order) is an
association list. -/
structure FHIRQuery where
  resource_type : ResourceType
  parameters : List (String × String)
  _include : Option (List String)
  _count : Option Nat
deriving DecidableEq, Repr

/-- Dictionary access `parameters.get(key)` on the built parameter list. -/
def paramGet? (key : String) (ps : List (String × String)) : Option String :=
  (ps.find? (fun p => p.1 == key)).map (fun p => p.2)

/-- `build_fhir_query`. The Python body reads `datetime.now().year` inside
both branches; that wall-clock read is modelled by the explicit
`current_year` argument, which is the only free input of the computation.
The two branches of `if entities["intent"] == "count"` are embedded
separately, mirroring the duplicated source. -/
def build_fhir_query (entities : ExtractedEntities) (current_year : Int) : FHIRQuery :=
  if entities.intent = "count" then
    let parameters : List (String × String) :=
      (if entities.conditions ≠ [] then
        [("_has:Condition:subject:code",
          String.intercalate "," (entities.conditions.map (fun c => c.code)))]
      else []) ++
      (match entities.age_filters.head? with
       | some (AgeFilter.cmp op v _) =>
         if op = ">" then
           [("birthdate", "le" ++ toString (current_year - v) ++ "-12-31")]
         else if op = "<" then
           [("birthdate", "ge" ++ toString (current_year - v) ++ "-01-01")]
         else []
       | some (AgeFilter.range lo hi _) =>
         [("birthdate", "ge" ++ toString (current_year - hi) ++ "-01-01&birthdate=le" ++
           toString (current_year - lo) ++ "-12-31")]
       | none => []) ++
      (match entities.gender with
       | some g => if g ≠ "" then [("gender", g)] else []
       | none => [])
    { resource_type := ResourceType.PATIENT
      parameters := parameters
      _include := if entities.conditions ≠ [] then some ["Condition:subject"] else none
      _count := some 100 }
  else
    let parameters : List (String × String) :=
      (if entities.conditions ≠ [] then
        [("_has:Condition:subject:code",
          String.intercalate "," (entities.conditions.map (fun c => c.code)))]
      else []) ++
      (match entities.age_filters.head? with
       | some (AgeFilter.cmp op v _) =>
         if op = ">" then
           [("birthdate", "le" ++ toString (current_year - v) ++ "-12-31")]
         else if op = "<" then
           [("birthdate", "ge" ++ toString (current_year - v) ++ "-01-01")]
         else []
       | some (AgeFilter.range lo hi _) =>
         [("birthdate", "ge" ++ toString (current_year - hi) ++ "-01-01&birthdate=le" ++
           toString (current_year - lo) ++ "-12-31")]
       | none => []) ++
      (match entities.gender with
       | some g => if g ≠ "" then [("gender", g)] else []
       | none => [])
    { resource_type := ResourceType.PATIENT
      parameters := parameters
      _include := if entities.conditions ≠ [] then some ["Condition:subject"] else none
      _count := some 100 }

/-! ## Result fetching: `fetch_real_fhir_data` -/

/-- Resource payloads flow through the fetch loop opaquely (the code never
inspects them), so they are modelled as abstract identifiers. -/
abbrev Resource := String

/-- One value of the request-parameter dict built from the query: the string
values copied from `query.parameters`, the `_include` list, or the numeric
`_count`. -/
inductive ParamVal where
  | str (s : String)
  | strs (l : List String)
  | num (n : Nat)
deriving DecidableEq, Repr

/-- The request-parameter dict, as an insertion-ordered association list. -/
abbrev Params := List (String × ParamVal)

/-- Python `key in params`. -/
def dictContains (key : String) (ps : Params) : Bool :=
  ps.any (fun p => p.1 == key)

/-- Python `params[key] = v`: replace in place when present, append
otherwise. -/
def dictSet (key : String) (v : ParamVal) (ps : Params) : Params :=
  if dictContains key ps then ps.map (fun p => if p.1 == key then (key, v) else p)
  else ps ++ [(key, v)]

/-- Python `params[key]` read. -/
def dictGet? (key : String) (ps : Params) : Option ParamVal :=
  (ps.find? (fun p => p.1 == key)).map (fun p => p.2)

/-- The parameter-building prologue of `fetch_real_fhir_data` (copy the query
parameters, fold in the `_include` values, cap `_count` at the safe page
size 50; a falsy `_count` of `0` is skipped like `None`). -/
def requestParams (query : FHIRQuery) : Params :=
  let params : Params := query.parameters.map (fun p => (p.1, ParamVal.str p.2))
  let params :=
    match query._include with
    | some incs =>
      if incs ≠ [] then
        incs.foldl (fun ps inc =>
          let ps := if dictContains "_include" ps = false then
              dictSet "_include" (ParamVal.strs []) ps
            else ps
          let ps := match dictGet? "_include" ps with
            | some (ParamVal.str s) => dictSet "_include" (ParamVal.strs [s]) ps
            | _ => ps
          match dictGet? "_include" ps with
          | some (ParamVal.strs l) => dictSet "_include" (ParamVal.strs (l ++ [inc])) ps
          | _ => ps) params
      else params
    | none => params
  match query._count with
  | some c => if c ≠ 0 then dictSet "_count" (ParamVal.num (min c 50)) params else params
  | none => params

/-- One `link` entry of a FHIR Bundle (either key may be missing). -/
structure BundleLink where
  relation : Option String
  url : Option String
deriving DecidableEq, Repr

/-- One `entry` of a FHIR Bundle; `none` models an entry without a
`resource` key. -/
structure BundleEntry where
  resource : Option Resource
deriving DecidableEq, Repr

/-- A response with `resourceType = "Bundle"`: its `entry` array, optional
`total`, and `link` array (only the fields the fetch loop reads). -/
structure Bundle where
  entries : List BundleEntry
  total : Option Int
  links : List BundleLink
deriving DecidableEq, Repr

/-- Outcome of one HTTP GET as seen by the fetch loop: `err` covers every
transport error, timeout, non-success status (`raise_for_status`) and
unparsable body; `single` is a parsed payload whose `resourceType` is not
`"Bundle"`; `bundle` is a paginated collection page. -/
inductive FetchResponse where
  | err
  | single (resource : Resource)
  | bundle (b : Bundle)
deriving DecidableEq, Repr

/-- The remote FHIR server, modelled as an oracle from the request URL and
parameter set to a response. -/
abbrev Server := String → Params → FetchResponse

/-- The result dict of `fetch_real_fhir_data`. The three return shapes of the
Python code populate different key subsets; absent keys are `none`. -/
structure FetchResult where
  total : Int
  resources : List Resource
  bundle : Option Bundle
  pages_fetched : Option Nat
  error : Option String
deriving DecidableEq, Repr

/-- `_generate_fallback_results`: total 0, no resources, an empty searchset
bundle, and the explicit error marker. -/
def generate_fallback_results : FetchResult :=
  { total := 0
    resources := []
    bundle := some { entries := [], total := some 0, links := [] }
    pages_fetched := none
    error := some "Unable to fetch data from FHIR server. This is fallback data." }

/-- `_get_next_link`: the `url` of the first link whose `relation` is
`next`. -/
def get_next_link (bundle : Bundle) : Option String :=
  (bundle.links.find? (fun l => l.relation == some "next")).bind (fun l => l.url)

/-- The resources of one page: entries that carry a `resource` key. -/
def pageResources (b : Bundle) : List Resource :=
  b.entries.filterMap (fun e => e.resource)

/-- The single-resource early return (`resourceType != "Bundle"`). -/
def singleResult (r : Resource) : FetchResult :=
  { total := 1
    resources := [r]
    bundle := some { entries := [{ resource := some r }], total := none, links := [] }
    pages_fetched := none
    error := none }

/-- The success return after the loop: `total_count or len(all_resources)`,
the accumulated resources, the last bundle, and `pages_fetched + 1`. -/
def loopSuccessResult (b : Bundle) (all_resources : List Resource)
    (total_count : Int) (pages_fetched : Nat) : FetchResult :=
  { total := if total_count ≠ 0 then total_count else (all_resources.length : Int)
    resources := all_resources
    bundle := some b
    pages_fetched := some (pages_fetched + 1)
    error := none }

/-- The pagination loop of `fetch_real_fhir_data`, paired with the number of
page requests issued. The loop guard `pages_fetched < max_pages` is carried
as the structural fuel `fuel = max_pages - pages_fetched` (the continuation
URL is always a nonempty string, so the `current_url` conjunct of the guard
never terminates the loop on its own). When the guard fails with no
iteration ever run, the Python success return reads the unbound local
`fhir_bundle`, and the resulting `NameError` is caught by the enclosing
`except` into the fallback result; `last_bundle = none` models that case. -/
def fetchLoop (server : Server) (fuel : Nat) (current_url : String)
    (current_params : Params) (pages_fetched : Nat) (all_resources : List Resource)
    (total_count : Int) (last_bundle : Option Bundle) (reqs : Nat) :
    FetchResult × Nat :=
  match fuel with
  | 0 =>
    match last_bundle with
    | some b => (loopSuccessResult b all_resources total_count pages_fetched, reqs)
    | none => (generate_fallback_results, reqs)
  | fuel' + 1 =>
    match server current_url current_params with
    | .err => (generate_fallback_results, reqs + 1)
    | .single r => (singleResult r, reqs + 1)
    | .bundle b =>
      match get_next_link b with
      | some next_url =>
        if next_url ≠ "" then
          fetchLoop server fuel' next_url [] (pages_fetched + 1)
            (all_resources ++ pageResources b)
            (match b.total with
             | some t => t
             | none => total_count)
            (some b) (reqs + 1)
        else
          (loopSuccessResult b (all_resources ++ pageResources b)
            (match b.total with
             | some t => t
             | none => total_count)
            pages_fetched, reqs + 1)
      | none =>
        (loopSuccessResult b (all_resources ++ pageResources b)
          (match b.total with
           | some t => t
           | none => total_count)
          pages_fetched, reqs + 1)

/-- The initial request URL `f"{fhir_base_url}/{query.resource_type.value}"`. -/
def initialUrl (fhir_base_url : String) (query : FHIRQuery) : String :=
  fhir_base_url ++ "/" ++ query.resource_type.value

/-- `fetch_real_fhir_data` instrumented with the number of page requests
issued. -/
def fetch_real_fhir_dataT (server : Server) (fhir_base_url : String)
    (query : FHIRQuery) (max_pages : Nat) : FetchResult × Nat :=
  fetchLoop server max_pages (initialUrl fhir_base_url query) (requestParams query)
    0 [] 0 none 0

/-- `fetch_real_fhir_data` (default `max_pages = 3` at the call sites). -/
def fetch_real_fhir_data (server : Server) (fhir_base_url : String)
    (query : FHIRQuery) (max_pages : Nat) : FetchResult :=
  (fetch_real_fhir_dataT server fhir_base_url query max_pages).1

/-! ## Concrete inputs used by counterexamples and witnesses -/

/-- Convenience constructor for annotated tokens with no dependency children. -/
def mkToken (text lem pos : String) (like_num : Bool) : Token :=
  { text := text, lemma_ := lem, pos_ := pos, like_num := like_num, children := [] }

/-- A document whose lemmas contain `heart` and `disease` alongside an
`asthma` token. -/
def hdDoc : Doc :=
  { tokens := [mkToken "heart" "heart" "NOUN" false, mkToken "disease" "disease" "NOUN" false,
               mkToken "asthma" "asthma" "NOUN" false],
    ents := [], text := "heart disease asthma" }

/-- A document containing the same condition under two dictionary spellings
(`diabetic` and `diabetes`, both mapping to code 44054006). -/
def diaDoc : Doc :=
  { tokens := [mkToken "diabetic" "diabetic" "ADJ" false,
               mkToken "patients" "patient" "NOUN" false,
               mkToken "with" "with" "ADP" false,
               mkToken "diabetes" "diabetes" "NOUN" false],
    ents := [], text := "diabetic patients with diabetes" }

/-- A document whose text matches `between 60 and 30` while its annotation
flags no numeric tokens, so the age filters come from the regex fallback
(the annotator is an external, substitutable collaborator; this is a legal
annotation of the text). -/
def btwDoc : Doc :=
  { tokens := [mkToken "between" "between" "ADP" false, mkToken "60" "60" "X" false,
               mkToken "and" "and" "CCONJ" false, mkToken "30" "30" "X" false],
    ents := [], text := "between 60 and 30" }

/-- A document whose first keyword token has an aggregate lemma while the
lemma `many` also occurs. -/
def avgManyDoc : Doc :=
  { tokens := [mkToken "average" "average" "NOUN" false, mkToken "many" "many" "ADJ" false],
    ents := [], text := "average many" }

/-- A document whose first token is a search verb. -/
def showDoc : Doc :=
  { tokens := [mkToken "show" "show" "VERB" false], ents := [], text := "show" }

/-- A document with no intent-bearing tokens but the phrase `how many` in its
text. -/
def howManyDoc : Doc :=
  { tokens := [mkToken "patients" "patient" "NOUN" false], ents := [],
    text := "how many patients" }

/-- An entity bag with the single age filter greater-than(50). -/
def c2Entities : ExtractedEntities :=
  { conditions := [], age_filters := [AgeFilter.cmp ">" 50 "spacy_context"], gender := none,
    intent := "search", resource_types := ["Patient"], extracted_numbers := [],
    extracted_entities := [] }

/-- An entity bag whose age-filter list has a second, discarded element. -/
def c4Entities : ExtractedEntities :=
  { conditions := [],
    age_filters := [AgeFilter.cmp ">" 50 "spacy_context", AgeFilter.cmp "<" 30 "spacy_context"],
    gender := none, intent := "search", resource_types := ["Patient"],
    extracted_numbers := [], extracted_entities := [] }

/-- The numeric mention of `60` in `between 60 and 30` as annotated with
numeric flags (its context window holds the `between` cue). -/
def n60 : NumberInfo :=
  { value := "60", numeric_value := some 60, context := "between and 30", position := 1,
    dependencies := [] }

/-- The numeric mention of `30` in `between 60 and 30`. -/
def n30 : NumberInfo :=
  { value := "30", numeric_value := some 30, context := "60 and", position := 3,
    dependencies := [] }

/-- Page `i` of a synthetic five-page collection: one resource per page, a
reported total of 5, and a `next` link up to page 5. -/
def c3PageBundle (i : Nat) : Bundle :=
  { entries := [{ resource := some ("r" ++ toString i) }]
    total := some 5
    links :=
      if i < 5 then [{ relation := some "next", url := some ("page" ++ toString (i + 1)) }]
      else [] }

/-- A server exposing the five-page synthetic collection. -/
def c3Server : Server := fun url _ =>
  if url = "https://hapi.fhir.org/baseR4/Patient" then .bundle (c3PageBundle 1)
  else if url = "page2" then .bundle (c3PageBundle 2)
  else if url = "page3" then .bundle (c3PageBundle 3)
  else if url = "page4" then .bundle (c3PageBundle 4)
  else if url = "page5" then .bundle (c3PageBundle 5)
  else .err

/-- A parameterless Patient query. -/
def patientQuery : FHIRQuery :=
  { resource_type := ResourceType.PATIENT, parameters := [], _include := none, _count := none }

/-- A server on which every request fails. -/
def errServer : Server := fun _ _ => .err

/-- A server that serves page 1 of the synthetic collection (whose next link
points at `page2`) and fails on every other URL, so a multi-page fetch
succeeds on its first request and then fails on the second page. -/
def errPage2Server : Server := fun url _ =>
  if url = "https://hapi.fhir.org/baseR4/Patient" then .bundle (c3PageBundle 1)
  else .err

/-! ## Helper lemmas -/

/-- Helper: `Char.ofNat` applied to a valid code point evaluates back to it. -/
theorem charToNat_ofNat_valid (n : Nat) (h : n.isValidChar) :
    (Char.ofNat n).toNat = n := by
  rw [Char.ofNat, dif_pos h]
  simp only [Char.ofNatAux, Char.toNat, UInt32.ofNat']
  rfl

/-- Lowercasing a character is idempotent. -/
theorem asciiLowerChar_idem (c : Char) :
    asciiLowerChar (asciiLowerChar c) = asciiLowerChar c := by
  unfold asciiLowerChar
  by_cases h : 65 ≤ c.toNat ∧ c.toNat ≤ 90
  · simp only [if_pos h]
    have hv : (c.toNat + 32).isValidChar := Or.inl (by omega)
    have ht : (Char.ofNat (c.toNat + 32)).toNat = c.toNat + 32 :=
      charToNat_ofNat_valid (c.toNat + 32) hv
    rw [if_neg (by omega)]
  · simp only [if_neg h]

/-- Lowercasing a string is idempotent. -/
theorem pyLower_idem (s : String) : pyLower (pyLower s) = pyLower s := by
  show String.mk ((s.data.map asciiLowerChar).map asciiLowerChar) =
    String.mk (s.data.map asciiLowerChar)
  congr 1
  rw [List.map_map]
  exact List.map_congr_left (fun c _ => asciiLowerChar_idem c)

/-- The first element on which `f` fires determines `List.findSome?`. -/
theorem findSome?_eq_of_first {α β : Type} (f : α → Option β) (l : List α) (i : Nat)
    (a : α) (ha : l.get? i = some a) (hsome : (f a).isSome = true)
    (hbefore : ∀ j b, j < i → l.get? j = some b → f b = none) :
    l.findSome? f = f a := by
  induction l generalizing i with
  | nil => simp at ha
  | cons x xs ih =>
    cases i with
    | zero =>
      simp only [List.get?] at ha
      cases ha
      rw [List.findSome?_cons]
      cases hfx : f a with
      | none => rw [hfx] at hsome; simp at hsome
      | some b => rfl
    | succ k =>
      have hx : f x = none := hbefore 0 x (Nat.succ_pos k) rfl
      rw [List.findSome?_cons, hx]
      exact ih k ha (fun j b hj hb => hbefore (j + 1) b (Nat.succ_lt_succ hj) hb)

/-- When `f` fires nowhere, `List.findSome?` returns `none`. -/
theorem findSome?_eq_none_of_all {α β : Type} (f : α → Option β) (l : List α)
    (h : ∀ a ∈ l, f a = none) : l.findSome? f = none := by
  induction l with
  | nil => rfl
  | cons x xs ih =>
    rw [List.findSome?_cons, h x (List.mem_cons_self x xs)]
    exact ih (fun a ha => h a (List.mem_cons_of_mem x ha))

/-- The dedup loop emits pairwise-distinct codes, none of them in `seen`. -/
theorem dedupByCode_nodup (l : List ConditionMatch) (seen : List String) :
    ((dedupByCode l seen).map (fun c => c.code)).Nodup ∧
    ∀ code ∈ (dedupByCode l seen).map (fun c => c.code), code ∉ seen := by
  induction l generalizing seen with
  | nil => simp [dedupByCode]
  | cons c rest ih =>
    by_cases h : c.code ∈ seen
    · have := ih seen
      simp only [dedupByCode, if_pos h]
      exact this
    · have h2 := ih (c.code :: seen)
      simp only [dedupByCode, if_neg h, List.map_cons, List.nodup_cons]
      refine ⟨⟨fun hmem => (h2.2 c.code hmem) (List.mem_cons_self _ _), h2.1⟩, ?_⟩
      intro code hcode
      rcases List.mem_cons.mp hcode with hc | hc
      · exact hc ▸ h
      · intro hs; exact (h2.2 code hc) (List.mem_cons_of_mem _ hs)

/-- The fetch loop's outcome is the fallback result or carries no error
marker. -/
theorem fetchLoop_shape (server : Server) (fuel : Nat) (url : String)
    (params : Params) (pf : Nat) (acc : List Resource) (tot : Int)
    (lb : Option Bundle) (reqs : Nat) :
    (fetchLoop server fuel url params pf acc tot lb reqs).1 = generate_fallback_results ∨
    (fetchLoop server fuel url params pf acc tot lb reqs).1.error = none := by
  induction fuel generalizing url params pf acc tot lb reqs with
  | zero =>
    cases lb with
    | none => exact Or.inl rfl
    | some b => exact Or.inr rfl
  | succ n ih =>
    rw [fetchLoop]
    split
    · exact Or.inl rfl
    · exact Or.inr rfl
    · split
      · split
        · exact ih _ _ _ _ _ _ _
        · exact Or.inr rfl
      · exact Or.inr rfl

/-- Whenever the fetch loop's outcome carries the error marker, that outcome
is exactly the fallback result. -/
theorem fetchLoop_error_eq_fallback (server : Server) (fuel : Nat) (url : String)
    (params : Params) (pf : Nat) (acc : List Resource) (tot : Int)
    (lb : Option Bundle) (reqs : Nat)
    (h : (fetchLoop server fuel url params pf acc tot lb reqs).1.error.isSome = true) :
    (fetchLoop server fuel url params pf acc tot lb reqs).1 = generate_fallback_results := by
  rcases fetchLoop_shape server fuel url params pf acc tot lb reqs with hs | hs
  · exact hs
  · rw [hs] at h
    simp at h

/-- The fetch loop issues at most `fuel` further page requests. -/
theorem fetchLoop_reqs_le (server : Server) (fuel : Nat) (url : String)
    (params : Params) (pf : Nat) (acc : List Resource) (tot : Int)
    (lb : Option Bundle) (reqs : Nat) :
    (fetchLoop server fuel url params pf acc tot lb reqs).2 ≤ reqs + fuel := by
  induction fuel generalizing url params pf acc tot lb reqs with
  | zero =>
    cases lb with
    | none => simp [fetchLoop]
    | some b => simp [fetchLoop]
  | succ n ih =>
    rw [fetchLoop]
    split
    · simp
    · simp
    · split
      · split
        · exact Nat.le_trans (ih _ _ _ _ _ _ _) (by omega)
        · show reqs + 1 ≤ reqs + (n + 1)
          omega
      · show reqs + 1 ≤ reqs + (n + 1)
        omega

/-! ## Claims -/

/-- C1: for every query specification and every failure during fetching
(transport error, timeout, non-success status, or malformed payload — all of
which surface as an `err` response), `fetch_real_fhir_data` returns the
fallback result with total 0, an empty resource sequence, and the error
marker set; and in every returned `FetchResult`, a set error marker forces
total 0 and an empty resource sequence. The failure case is quantified over
every state of the pagination loop: the second conjunct says that at ANY
loop state with budget left — any page of the multi-page fetch, in
particular any continuation URL reached after earlier successful pages, with
any resources already accumulated — an `err` response abandons the loop and
returns the fallback. The third conjunct instantiates this at the first
request of `fetch_real_fhir_data`, and the fourth exhibits an end-to-end run
whose first page succeeds and whose second page fails, still yielding the
fallback. The function is total, so no exception can reach the caller. -/
theorem claimC1_fetch_failure_fallback (server : Server) (fhir_base_url : String)
    (query : FHIRQuery) (max_pages : Nat) :
    ((fetch_real_fhir_data server fhir_base_url query max_pages).error.isSome = true →
      (fetch_real_fhir_data server fhir_base_url query max_pages).total = 0 ∧
      (fetch_real_fhir_data server fhir_base_url query max_pages).resources = []) ∧
    (∀ (fuel : Nat) (url : String) (params : Params) (pages_fetched : Nat)
        (acc : List Resource) (tot : Int) (lb : Option Bundle) (reqs : Nat),
      1 ≤ fuel → server url params = FetchResponse.err →
      (fetchLoop server fuel url params pages_fetched acc tot lb reqs).1 =
        generate_fallback_results) ∧
    (1 ≤ max_pages →
      server (initialUrl fhir_base_url query) (requestParams query) = FetchResponse.err →
      fetch_real_fhir_data server fhir_base_url query max_pages =
        generate_fallback_results) ∧
    fetch_real_fhir_data errPage2Server "https://hapi.fhir.org/baseR4" patientQuery 3 =
      generate_fallback_results := by
  refine ⟨?_, ?_, ?_, by decide⟩
  · intro he
    have hf : fetch_real_fhir_data server fhir_base_url query max_pages =
        generate_fallback_results :=
      fetchLoop_error_eq_fallback server max_pages _ _ 0 [] 0 none 0 he
    rw [hf]
    exact ⟨rfl, rfl⟩
  · intro fuel url params pages_fetched acc tot lb reqs hfuel hsrv
    cases fuel with
    | zero => omega
    | succ n => rw [fetchLoop, hsrv]
  · intro hmp hsrv
    cases max_pages with
    | zero => omega
    | succ n =>
      show (fetchLoop server (n + 1) (initialUrl fhir_base_url query)
        (requestParams query) 0 [] 0 none 0).1 = generate_fallback_results
      rw [fetchLoop, hsrv]

/-- C1 witness: on a server that always fails, the one-page fetch of a
parameterless Patient query yields the fallback result; and the general
loop-state conjunct applied at the mid-loop state reached after a successful
first page (continuation URL `page2`, one resource accumulated) yields the
fallback when the second page request fails. -/
theorem claimC1_fetch_failure_fallback_witness :
    (fetch_real_fhir_data errServer "https://hapi.fhir.org/baseR4" patientQuery 1).total = 0 ∧
    (fetch_real_fhir_data errServer "https://hapi.fhir.org/baseR4" patientQuery 1).resources
      = [] ∧
    (fetchLoop errPage2Server 2 "page2" [] 1 ["r1"] 5 (some (c3PageBundle 1)) 1).1 =
      generate_fallback_results ∧
    fetch_real_fhir_data errServer "https://hapi.fhir.org/baseR4" patientQuery 1 =
      generate_fallback_results := by
  refine ⟨((claimC1_fetch_failure_fallback errServer "https://hapi.fhir.org/baseR4"
      patientQuery 1).1 (by decide)).1,
    ((claimC1_fetch_failure_fallback errServer "https://hapi.fhir.org/baseR4"
      patientQuery 1).1 (by decide)).2,
    (claimC1_fetch_failure_fallback errPage2Server "https://hapi.fhir.org/baseR4"
      patientQuery 3).2.1 2 "page2" [] 1 ["r1"] 5 (some (c3PageBundle 1)) 1 (by omega)
      (by decide),
    (claimC1_fetch_failure_fallback errServer "https://hapi.fhir.org/baseR4"
      patientQuery 1).2.2.1 (by decide) rfl⟩

/-- C3 counterexample: with `maxPages = 3` against the synthetic five-page
collection, exactly 3 page requests are issued and the fetch ends without
error, but the returned pages-fetched count is 4, not the number of pages
actually fetched (3) — refuting the claim's final equality. -/
theorem claimC3_counterexample :
    (fetch_real_fhir_dataT c3Server "https://hapi.fhir.org/baseR4" patientQuery 3).2 = 3 ∧
    (fetch_real_fhir_data c3Server "https://hapi.fhir.org/baseR4" patientQuery 3).error = none ∧
    (fetch_real_fhir_data c3Server "https://hapi.fhir.org/baseR4" patientQuery 3).pages_fetched
      = some 4 ∧
    (fetch_real_fhir_data c3Server "https://hapi.fhir.org/baseR4" patientQuery 3).pages_fetched
      ≠ some ((fetch_real_fhir_dataT c3Server "https://hapi.fhir.org/baseR4" patientQuery 3).2) := by
  decide

/-- C3 amended: for every query specification, the pagination loop issues at
most `maxPages` page requests and terminates; with `maxPages = 3` against the
synthetic five-page collection, exactly 3 pages are requested, the fetch ends
without error, and the returned pages-fetched count is `maxPages + 1 = 4`,
one more than the number of pages actually fetched (the two agree only when
the loop stops for lack of a next link). -/
theorem claimC3_amended_pagination_bound :
    (∀ (server : Server) (fhir_base_url : String) (query : FHIRQuery) (max_pages : Nat),
      (fetch_real_fhir_dataT server fhir_base_url query max_pages).2 ≤ max_pages) ∧
    (fetch_real_fhir_dataT c3Server "https://hapi.fhir.org/baseR4" patientQuery 3).2 = 3 ∧
    (fetch_real_fhir_data c3Server "https://hapi.fhir.org/baseR4" patientQuery 3).error = none ∧
    (fetch_real_fhir_data c3Server "https://hapi.fhir.org/baseR4" patientQuery 3).pages_fetched
      = some 4 := by
  refine ⟨fun server base query mp => ?_, by decide, by decide, by decide⟩
  have h := fetchLoop_reqs_le server mp (initialUrl base query) (requestParams query)
    0 [] 0 none 0
  simpa using h

/-- C2: in the embedding the wall-clock read `datetime.now().year` of
`build_fhir_query` is forced into the explicit `current_year` argument, and
with it fixed at 2024 the greater-than(50) filter yields the birth-date
upper bound 1974-12-31; but the output changes when the wall clock moves to
2025, exhibiting the dependence that the Python code takes from
`datetime.now()` instead of an injectable parameter. -/
theorem claimC2_reference_year :
    paramGet? "birthdate" (build_fhir_query c2Entities 2024).parameters =
      some "le1974-12-31" ∧
    build_fhir_query c2Entities 2024 ≠ build_fhir_query c2Entities 2025 := by
  decide

/-- C4: with at least one age filter extracted, `build_fhir_query` encodes
only the first filter (dropping the rest changes nothing), and that filter
becomes the claimed birth-date bound: greater-than(A) gives
`le(year−A)-12-31`, less-than(A) gives `ge(year−A)-01-01`, and
range(lo, hi) gives the combined `ge(year−hi)-01-01&birthdate=le(year−lo)-12-31`. -/
theorem claimC4_age_filter_encoding (entities : ExtractedEntities) (current_year : Int)
    (f : AgeFilter) (rest : List AgeFilter) (h : entities.age_filters = f :: rest) :
    build_fhir_query entities current_year =
      build_fhir_query { entities with age_filters := [f] } current_year ∧
    (∀ a m, f = AgeFilter.cmp ">" a m →
      paramGet? "birthdate" (build_fhir_query entities current_year).parameters =
        some ("le" ++ toString (current_year - a) ++ "-12-31")) ∧
    (∀ a m, f = AgeFilter.cmp "<" a m →
      paramGet? "birthdate" (build_fhir_query entities current_year).parameters =
        some ("ge" ++ toString (current_year - a) ++ "-01-01")) ∧
    (∀ lo hi m, f = AgeFilter.range lo hi m →
      paramGet? "birthdate" (build_fhir_query entities current_year).parameters =
        some ("ge" ++ toString (current_year - hi) ++ "-01-01&birthdate=le" ++
          toString (current_year - lo) ++ "-12-31")) := by
  have key : ∀ v : String,
      paramGet? "birthdate"
        ((if entities.conditions ≠ [] then
            [("_has:Condition:subject:code",
              String.intercalate "," (entities.conditions.map (fun c => c.code)))]
          else []) ++
          ([("birthdate", v)] ++
          (match entities.gender with
           | some g => if g ≠ "" then [("gender", g)] else []
           | none => []))) = some v := by
    intro v
    by_cases hc : entities.conditions ≠ [] <;> simp [hc, paramGet?, List.find?]
  constructor
  · unfold build_fhir_query
    rw [h]
    rfl
  refine ⟨?_, ?_, ?_⟩
  · intro a m hf
    subst hf
    unfold build_fhir_query
    rw [h]
    by_cases hi : entities.intent = "count" <;>
      simpa [hi, List.head?] using key ("le" ++ toString (current_year - a) ++ "-12-31")
  · intro a m hf
    subst hf
    unfold build_fhir_query
    rw [h]
    by_cases hi : entities.intent = "count" <;>
      simpa [hi, List.head?] using key ("ge" ++ toString (current_year - a) ++ "-01-01")
  · intro lo hi m hf
    subst hf
    unfold build_fhir_query
    rw [h]
    by_cases hint : entities.intent = "count" <;>
      simpa [hint, List.head?] using
        key ("ge" ++ toString (current_year - hi) ++ "-01-01&birthdate=le" ++
          toString (current_year - lo) ++ "-12-31")

/-- C4 witness: greater-than(50) at reference year 2024, with a second,
discarded filter present. -/
theorem claimC4_age_filter_encoding_witness :
    build_fhir_query c4Entities 2024 =
      build_fhir_query { c4Entities with
        age_filters := [AgeFilter.cmp ">" 50 "spacy_context"] } 2024 ∧
    paramGet? "birthdate" (build_fhir_query c4Entities 2024).parameters =
      some "le1974-12-31" := by
  constructor
  · exact (claimC4_age_filter_encoding c4Entities 2024 (AgeFilter.cmp ">" 50 "spacy_context")
      [AgeFilter.cmp "<" 30 "spacy_context"] rfl).1
  · have := (claimC4_age_filter_encoding c4Entities 2024 (AgeFilter.cmp ">" 50 "spacy_context")
      [AgeFilter.cmp "<" 30 "spacy_context"] rfl).2.1 50 "spacy_context" rfl
    rw [this]
    decide

/-- C5 counterexample: in `hdDoc` the single-word entry `asthma` matches a
token's lemma and surface text, so under the claim's independent-matching
rule its code 195967001 would appear; but because the multi-word
`heart disease` entry precedes it in dictionary order and its doc-level test
holds, every token matches `heart disease` first and breaks, so the output
is the single heart-disease match and the asthma code is absent. -/
theorem claimC5_counterexample :
    extract_conditions_with_spacy hdDoc =
      [{ term := "heart disease", code := "56265001", system := "http://snomed.info/sct",
         display := "Heart disease", extraction_method := "spacy_lemma_multiword" }] ∧
    "195967001" ∉ (extract_conditions_with_spacy hdDoc).map (fun c => c.code) := by
  decide

/-- C5 amended: condition matching is per token with dictionary-order
priority and at most one match recorded per token (so an earlier multi-word
entry whose words all occur can shadow later entries); the resulting list is
deduplicated by code with first occurrence winning: the output codes are
pairwise distinct for every document, and a text containing a term twice
(`diabetic ... diabetes`) yields exactly one `ConditionMatch` with that
code. -/
theorem claimC5_amended_condition_matching :
    (∀ doc : Doc, ((extract_conditions_with_spacy doc).map (fun c => c.code)).Nodup) ∧
    extract_conditions_with_spacy diaDoc =
      [{ term := "diabetic", code := "44054006", system := "http://snomed.info/sct",
         display := "Diabetes mellitus", extraction_method := "spacy_lemma" }] := by
  exact ⟨fun doc => (dedupByCode_nodup _ []).1, by decide⟩

/-- C6 counterexample: on `btwDoc` — whose text matches `between 60 and 30`
and whose annotation yields no numeric mentions, so the regex fallback path
resolves the filter — the extracted range filter is `range(min := 60,
max := 30)`, in textual order, not the claimed sorted
`range(min(60,30), max(60,30)) = range(30, 60)`. -/
theorem claimC6_counterexample :
    extract_age_filters_with_spacy btwDoc (extract_numbers_with_context btwDoc) =
      [AgeFilter.range 60 30 "regex_fallback"] ∧
    AgeFilter.range 30 60 "regex_fallback" ∉
      extract_age_filters_with_spacy btwDoc (extract_numbers_with_context btwDoc) := by
  decide

/-- C6 amended: a range filter produced by the numeric-mention context path
is always the sorted pair of the mention's value and some other mention's
value (min/max regardless of order); the regex fallback path instead records
the two numbers of `between A and B` in textual order, so its min/max are
sorted only when A ≤ B. -/
theorem claimC6_amended_between_range :
    (∀ (numbers : List NumberInfo) (ni : NumberInfo) (lo hi : Int) (m : String),
      contextFilterOf numbers ni = some (AgeFilter.range lo hi m) →
      ∃ v w, ni.numeric_value = some v ∧
        (∃ other ∈ numbers, other.numeric_value = some w) ∧
        lo = min v w ∧ hi = max v w) ∧
    (∀ (doc : Doc) (a b : Nat),
      (extract_numbers_with_context doc).filterMap
          (contextFilterOf (extract_numbers_with_context doc)) = [] →
      searchBetween doc.text.data = some (a, b) →
      AgeFilter.range (Int.ofNat a) (Int.ofNat b) "regex_fallback" ∈
        extract_age_filters_with_spacy doc (extract_numbers_with_context doc)) := by
  constructor
  · intro numbers ni lo hi m hf
    unfold contextFilterOf at hf
    cases hv : ni.numeric_value with
    | none => rw [hv] at hf; exact absurd hf (by simp)
    | some v =>
      rw [hv] at hf
      dsimp only at hf
      by_cases hz : v = 0
      · rw [if_pos hz] at hf; exact absurd hf (by simp)
      · rw [if_neg hz] at hf
        split at hf
        · exact absurd hf (by simp)
        · split at hf
          · exact absurd hf (by simp)
          · split at hf
            · rename_i hfind
              cases hfind2 : List.find?
                  (fun other => decide (other ≠ ni) && truthyOptInt other.numeric_value)
                  numbers with
              | none => rw [hfind2] at hf; exact absurd hf (by simp)
              | some other =>
                rw [hfind2] at hf
                dsimp only at hf
                cases hw : other.numeric_value with
                | none => rw [hw] at hf; exact absurd hf (by simp)
                | some w =>
                  rw [hw] at hf
                  refine ⟨v, w, rfl, ⟨other, List.mem_of_find?_eq_some hfind2, hw⟩, ?_⟩
                  have := Option.some.inj hf
                  cases this
                  exact ⟨rfl, rfl⟩
            · exact absurd hf (by simp)
  · intro doc a b hempty hb
    unfold extract_age_filters_with_spacy
    rw [hempty, hb]
    cases hcmp : searchCmp doc.text.data with
    | none => simp
    | some r => simp

/-- C6 witness for the amended claim: the context path on the annotated
`between 60 and 30` mentions yields the sorted pair, and on `btwDoc` the
regex fallback filter `range(60, 30)` is a member of the extractor's
output. -/
theorem claimC6_amended_between_range_witness :
    (∃ v w, n60.numeric_value = some v ∧
      (∃ other ∈ [n60, n30], other.numeric_value = some w) ∧
      (30 : Int) = min v w ∧ (60 : Int) = max v w) ∧
    AgeFilter.range 60 30 "regex_fallback" ∈
      extract_age_filters_with_spacy btwDoc (extract_numbers_with_context btwDoc) := by
  constructor
  · exact claimC6_amended_between_range.1 [n60, n30] n60 30 60 "spacy_context_range"
      (by decide)
  · exact claimC6_amended_between_range.2 btwDoc 60 30 (by decide) (by decide)

/-- C7 counterexample: in `avgManyDoc` the first (and only) token whose
lemma belongs to any keyword set is `average`, an aggregate verb, so the
claim predicts intent `aggregate`; the code returns `count`, because the
token-scan's count branch also fires when any token's lemma is `many`. -/
theorem claimC7_counterexample :
    determine_intent_with_spacy avgManyDoc = "count" ∧
    determine_intent_with_spacy avgManyDoc ≠ "aggregate" := by
  decide

/-- C7 amended: the detected intent is determined by the first token (in
token order) at which the scan returns: a token that is a verb or has a
keyword lemma returns `search` when its lemma is a search verb, `count` when
its lemma is a count verb or any token's lemma is `many`, `aggregate` when
its lemma is an aggregate verb, and nothing otherwise; if no token returns,
the phrase fallback applies (`how many`/`number of` give `count`,
`average`/`mean`/`median` give `aggregate`, else `search`). -/
theorem claimC7_amended_intent :
    (∀ (doc : Doc) (i : Nat) (t : Token),
      doc.tokens.get? i = some t →
      (tokenIntent (doc.tokens.map (fun tk => tk.lemma_)) t).isSome = true →
      (∀ j s, j < i → doc.tokens.get? j = some s →
        tokenIntent (doc.tokens.map (fun tk => tk.lemma_)) s = none) →
      some (determine_intent_with_spacy doc) =
        tokenIntent (doc.tokens.map (fun tk => tk.lemma_)) t) ∧
    (∀ doc : Doc,
      (∀ t ∈ doc.tokens, tokenIntent (doc.tokens.map (fun tk => tk.lemma_)) t = none) →
      determine_intent_with_spacy doc = phraseFallbackIntent doc.text) := by
  constructor
  · intro doc i t ht hsome hbefore
    unfold determine_intent_with_spacy
    rw [findSome?_eq_of_first _ _ i t ht hsome hbefore]
    cases hft : tokenIntent (doc.tokens.map (fun tk => tk.lemma_)) t with
    | none => rw [hft] at hsome; simp at hsome
    | some s => rfl
  · intro doc hall
    unfold determine_intent_with_spacy
    rw [findSome?_eq_none_of_all _ _ hall]

/-- C7 witness for the amended claim: on `showDoc` the first token returns
`search`; on `howManyDoc` no token returns and the phrase fallback decides. -/
theorem claimC7_amended_intent_witness :
    some (determine_intent_with_spacy showDoc) =
      tokenIntent (showDoc.tokens.map (fun tk => tk.lemma_)) (mkToken "show" "show" "VERB" false) ∧
    determine_intent_with_spacy howManyDoc = phraseFallbackIntent howManyDoc.text := by
  constructor
  · exact claimC7_amended_intent.1 showDoc 0 (mkToken "show" "show" "VERB" false) (by decide)
      (by decide) (fun j s hj _ => absurd hj (Nat.not_lt_zero j))
  · exact claimC7_amended_intent.2 howManyDoc (by decide)

/-- C8: `build_fhir_query` produces the same structured query for intent
`count` and intent `search` on otherwise identical entities — the two
branches of the builder are identical. -/
theorem claimC8_count_eq_search (entities : ExtractedEntities) (current_year : Int) :
    build_fhir_query { entities with intent := "count" } current_year =
      build_fhir_query { entities with intent := "search" } current_year := by
  rfl

/-- C9: every built query targets the Patient resource type, carries the
page-size hint 100, and has the include list `["Condition:subject"]` exactly
when the conditions list is non-empty (absent otherwise). -/
theorem claimC9_fixed_fields (entities : ExtractedEntities) (current_year : Int) :
    (build_fhir_query entities current_year).resource_type = ResourceType.PATIENT ∧
    (build_fhir_query entities current_year)._count = some 100 ∧
    (build_fhir_query entities current_year)._include =
      (if entities.conditions = [] then none else some ["Condition:subject"]) := by
  unfold build_fhir_query
  by_cases hi : entities.intent = "count" <;> by_cases hc : entities.conditions = [] <;>
    simp [hi, hc]

/-- C10: entity extraction lowercases the query before annotation, so
extracting from a text and from its lowercased form produce the same
`ExtractedEntities` for every annotation oracle. -/
theorem claimC10_case_insensitive (nlp : String → Doc) (explain : String → Option String)
    (query : String) :
    extract_entities nlp explain query = extract_entities nlp explain (pyLower query) := by
  unfold extract_entities
  rw [pyLower_idem]

end FHIRNLP
